import Mathlib

/-!
Verification of the CityScrape / BrightStone multi-tenant schema and its
operations, shallowly embedded from the SQL migrations
(001_single_document_pipeline, 002_schema_optimizations,
003_final_optimizations_simple) and the web code (lib/api.ts, the NextAuth
route, the alert and property components).

Tables are embedded as Lean lists of row structures; each SQL constraint or
statement that a claim depends on becomes an executable Lean definition over
those lists.  Operations whose server-side code is not part of the sources
(the FastAPI backend) are modelled from the specification and marked as such
in their doc comments.
-/

/-- A row of the global `documents` table.  Columns restricted to the ones the
claims speak about: `id`, `meeting_id` (FK to meetings, migration 001/002),
`content_hash` (unique after migration 002), and `status`. -/
structure Document where
  id : Nat
  meeting_id : Nat
  content_hash : String
  status : String
  deriving Repr, DecidableEq

/-- A row of the global `meetings` table: `id` and `municipality_id`
(FK to municipalities, ON DELETE CASCADE, migration 001). -/
structure Meeting where
  id : Nat
  municipality_id : Nat
  deriving Repr, DecidableEq

/-- A row of the global `municipalities` table: `id` and `feed_url`
(unique after migration 002). -/
structure Municipality where
  id : Nat
  feed_url : String
  deriving Repr, DecidableEq

/-- A row of the tenant-scoped `alerts` table: `id`, `company_id`
(FK to companies), `document_id` (FK to documents, ON DELETE CASCADE,
nullable until migration 003 makes it NOT NULL), and `review_status`. -/
structure Alert where
  id : Nat
  company_id : Nat
  document_id : Option Nat
  review_status : String
  deriving Repr, DecidableEq

/-- A row of the tenant-scoped `properties` table: `id`, `company_id`,
`municipality_id` (NOT NULL after migration 002), `address`. -/
structure Property where
  id : Nat
  company_id : Nat
  municipality_id : Nat
  address : String
  deriving Repr, DecidableEq

/-- The relational state the claims quantify over.  `company_municipalities`
rows are (company_id, municipality_id) pairs, matching the composite primary
key of the link table created in migration 001. -/
structure DB where
  municipalities : List Municipality
  meetings : List Meeting
  documents : List Document
  alerts : List Alert
  company_municipalities : List (Nat × Nat)
  properties : List Property
  deriving Repr, DecidableEq

/-- The unique constraint `documents_content_hash_unique` added by migration
002: no two rows of `documents` share a `content_hash`. -/
def documents_content_hash_unique (docs : List Document) : Prop :=
  docs.Pairwise (fun d1 d2 => d1.content_hash ≠ d2.content_hash)

/-- Fresh serial id for a `documents` insert (models the SERIAL column). -/
def freshDocumentId (docs : List Document) : Nat :=
  (docs.map (fun d => d.id)).foldr max 0 + 1

/-- Modelled from the spec: the FastAPI ingestion endpoint (the repository
backend directory) is not under src/.  Section 4.2 of the spec: on a hash
collision with an existing Document the ingest is a no-op re-ingest returning
the existing document identity; on a new hash a row in "pending" status is
inserted, linked to its Meeting, which must already exist, otherwise the
operation fails with a missing-parent error.  The dedup decision itself is
backed by the unique constraint from migration 002 (in src). -/
def ingestDocument (db : DB) (meetingId : Nat) (hash : String) :
    Except String (Nat × DB) :=
  match db.documents.find? (fun d => d.content_hash == hash) with
  | some d => Except.ok (d.id, db)
  | none =>
    if db.meetings.any (fun m => m.id == meetingId) then
      let nid := freshDocumentId db.documents
      Except.ok (nid,
        { db with documents :=
            { id := nid, meeting_id := meetingId, content_hash := hash,
              status := "pending" } :: db.documents })
    else
      Except.error "missing parent meeting"

/-- Fresh serial id for an `alerts` insert. -/
def freshAlertId (alerts : List Alert) : Nat :=
  (alerts.map (fun a => a.id)).foldr max 0 + 1

/-- The alerts rows held for one (company, document) pair. -/
def alertsForCompanyDocument (alerts : List Alert) (companyId documentId : Nat) :
    List Alert :=
  alerts.filter
    (fun a => a.company_id == companyId && a.document_id == some documentId)

/-- Modelled from the spec: the alert matcher is an external collaborator
whose code is not under src/.  Section 4.3 of the spec: for each positive
match it creates exactly one Alert row keyed by (company_id, document_id)
with initial review_status "pending", and re-running it on an
already-alerted pair must not create a duplicate (idempotent upsert). -/
def matcherUpsertAlert (alerts : List Alert) (companyId documentId : Nat) :
    List Alert :=
  if alerts.any
      (fun a => a.company_id == companyId && a.document_id == some documentId)
  then alerts
  else
    { id := freshAlertId alerts, company_id := companyId,
      document_id := some documentId, review_status := "pending" } :: alerts

/-- A tenant-owned row as seen by the query gate: an entity id, the stored
`company_id`, and an opaque payload standing for the other columns. -/
structure TenantRow where
  id : Nat
  company_id : Nat
  payload : String
  deriving Repr, DecidableEq

/-- Modelled from the spec: the tenant-scoped query gate of section 4.1 lives
in the FastAPI backend, which is not under src/.  Given the caller company id
(from the verified identity claim) and an entity id, the gate returns the
entity only if the stored company_id matches, and otherwise signals not-found
(never forbidden). -/
def tenantGet (callerCompanyId : Nat) (rows : List TenantRow) (eid : Nat) :
    Option TenantRow :=
  rows.find? (fun r => r.id == eid && r.company_id == callerCompanyId)

/-- Modelled from the spec: list operation of the section 4.1 gate, returning
only rows whose stored company_id equals the caller company id. -/
def tenantList (callerCompanyId : Nat) (rows : List TenantRow) :
    List TenantRow :=
  rows.filter (fun r => r.company_id == callerCompanyId)

/-- Modelled from the spec: update operation of the section 4.1 gate; only a
row with the given entity id that is owned by the caller is modified. -/
def tenantUpdate (callerCompanyId : Nat) (rows : List TenantRow) (eid : Nat)
    (newPayload : String) : List TenantRow :=
  rows.map (fun r =>
    if r.id == eid && r.company_id == callerCompanyId then
      { r with payload := newPayload }
    else r)

/-- The check constraint `alerts_review_status_check` added by migration 002:
review_status must be one of "pending", "reviewed", "resolved". -/
def alerts_review_status_check (s : String) : Bool :=
  s == "pending" || s == "reviewed" || s == "resolved"

/-- An UPDATE of one alert row setting review_status, as executed against a
table carrying `alerts_review_status_check`: a value outside the allowed set
violates the constraint, the statement errors and the table is unchanged. -/
def updateAlertStatus (alerts : List Alert) (aid : Nat) (s : String) :
    Except String (List Alert) :=
  if alerts_review_status_check s then
    Except.ok (alerts.map (fun a =>
      if a.id == aid then { a with review_status := s } else a))
  else
    Except.error "alerts_review_status_check"

/-- Referential integrity of the foreign keys the cascade claims are about:
meetings reference an existing municipality, documents reference an existing
meeting, and every non-null alerts.document_id references an existing
document. -/
def fkIntegrity (db : DB) : Prop :=
  (∀ m ∈ db.meetings, ∃ mu ∈ db.municipalities, mu.id = m.municipality_id) ∧
  (∀ d ∈ db.documents, ∃ m ∈ db.meetings, m.id = d.meeting_id) ∧
  (∀ a ∈ db.alerts, ∀ x, a.document_id = some x →
    ∃ d ∈ db.documents, d.id = x)

/-- Deletion of a documents row under `alerts_document_id_fkey` ON DELETE
CASCADE (migration 001): the document disappears and so does every alert
referencing it. -/
def deleteDocumentCascade (db : DB) (did : Nat) : DB :=
  { db with
    documents := db.documents.filter (fun d => !(d.id == did)),
    alerts := db.alerts.filter (fun a => !(a.document_id == some did)) }

/-- Deletion of a municipalities row under the full cascade chain
`meetings_municipality_id_fkey`, `documents_meeting_id_fkey`,
`alerts_document_id_fkey` (all ON DELETE CASCADE, migrations 001/002):
its meetings are deleted, their documents are deleted, and the alerts of
those documents are deleted. -/
def deleteMunicipalityCascade (db : DB) (mid : Nat) : DB :=
  let deadMeetingIds :=
    (db.meetings.filter (fun m => m.municipality_id == mid)).map (fun m => m.id)
  let deadDocumentIds :=
    (db.documents.filter (fun d => deadMeetingIds.contains d.meeting_id)).map
      (fun d => d.id)
  { db with
    municipalities := db.municipalities.filter (fun mu => !(mu.id == mid)),
    meetings := db.meetings.filter (fun m => !(m.municipality_id == mid)),
    documents :=
      db.documents.filter (fun d => !(deadMeetingIds.contains d.meeting_id)),
    alerts := db.alerts.filter (fun a =>
      !(match a.document_id with
        | some x => deadDocumentIds.contains x
        | none => false)) }

/-- Custom claims that the NextAuth jwt callback reads out of the decoded
Auth0 id_token payload (route.ts): `company_id`, the namespaced
company-id claim, `role`, and the namespaced role claim.  `none` models an
absent claim.  The callback base64-decodes the payload without verifying the
token signature (the route comments this as decoding without verification). -/
structure IdTokenClaims where
  company_id : Option String
  ns_company_id : Option String
  role : Option String
  ns_role : Option String
  deriving Repr, DecidableEq

/-- JavaScript short-circuit OR over possibly-absent strings: an absent value
or an empty string falls through to the right operand. -/
def jsOrElse (a b : Option String) : Option String :=
  match a with
  | some s => if s = "" then b else some s
  | none => b

/-- The jwt callback of route.ts: token.company_id is the company_id claim,
falling back to the namespaced claim. -/
def jwtCallbackCompanyId (claims : IdTokenClaims) : Option String :=
  jsOrElse claims.company_id claims.ns_company_id

/-- The jwt callback of route.ts: token.role is the role claim, then the
namespaced claim, then the literal "analyst". -/
def jwtCallbackRole (claims : IdTokenClaims) : Option String :=
  jsOrElse (jsOrElse claims.role claims.ns_role) (some "analyst")

/-- The user object the session callback of route.ts exposes to the client. -/
structure SessionUser where
  company_id : String
  role : String
  deriving Repr, DecidableEq

/-- The session callback of route.ts: company_id is token.company_id with the
JavaScript fallback to the literal "default", and role is token.role with the
fallback to "analyst". -/
def sessionCallbackUser (tokenCompanyId tokenRole : Option String) :
    SessionUser :=
  { company_id := (jsOrElse tokenCompanyId (some "default")).getD "default",
    role := (jsOrElse tokenRole (some "analyst")).getD "analyst" }

/-- Composition of the jwt and session callbacks of route.ts: from decoded
id_token claims to the session user the API client scopes requests by. -/
def sessionUserFromClaims (claims : IdTokenClaims) : SessionUser :=
  sessionCallbackUser (jwtCallbackCompanyId claims) (jwtCallbackRole claims)

/-- Fresh serial id for a `properties` insert. -/
def freshPropertyId (props : List Property) : Nat :=
  (props.map (fun p => p.id)).foldr max 0 + 1

/-- Modelled from the spec: the property-create write path lives in the
FastAPI backend, which is not under src/.  Section 3 and section 8 of the
spec: a Company may only create Properties in municipalities it subscribes to
via company_municipalities (in src, migration 001); without a subscription
row the create is rejected at the write path. -/
def createProperty (db : DB) (companyId municipalityId : Nat) (addr : String) :
    Except String DB :=
  if db.company_municipalities.any
      (fun cm => cm.1 == companyId && cm.2 == municipalityId) then
    Except.ok
      { db with properties :=
          { id := freshPropertyId db.properties, company_id := companyId,
            municipality_id := municipalityId, address := addr }
            :: db.properties }
  else
    Except.error "company is not subscribed to this municipality"

/-- The filter parameters the alerts page passes to the alerts list call
(status, municipality, property_id, start_date, end_date). -/
structure AlertListParams where
  status : Option String
  municipality : Option String
  property_id : Option Nat
  start_date : Option String
  end_date : Option String
  deriving Repr, DecidableEq

/-- One element of the list returned by apiClient.alerts.list in
src/web/lib/api.ts.  The relevance_score field (a floating-point literal) is
omitted from the embedding; all other fields are kept verbatim. -/
structure AlertView where
  id : Nat
  title : String
  review_status : String
  municipality : String
  property_matches : List String
  rule_matches : List String
  created_at : String
  deriving Repr, DecidableEq

/-- The body of apiClient.alerts.list (src/web/lib/api.ts lines 73 to 131):
it returns a hardcoded five-element list and never reads its params argument;
the call of the backend with the params is commented out in the source. -/
def alertsListMock (_params : AlertListParams) : List AlertView :=
  [ { id := 1, title := "Zoning By-law Amendment - King Street West",
      review_status := "pending", municipality := "Toronto",
      property_matches := ["123 King Street West"],
      rule_matches := ["Zoning Changes", "Development Rights"],
      created_at := "2024-01-15T10:00:00Z" },
    { id := 2, title := "Development Charges Increase - Downtown Core",
      review_status := "reviewing", municipality := "Toronto",
      property_matches := ["456 Queen Street East"],
      rule_matches := ["Development Charges", "Cost Impact"],
      created_at := "2024-01-16T11:00:00Z" },
    { id := 3, title := "New Residential Development Guidelines",
      review_status := "reviewing", municipality := "Toronto",
      property_matches := ["789 Lakeshore Boulevard"],
      rule_matches := ["Residential Development", "Guidelines"],
      created_at := "2024-01-17T12:00:00Z" },
    { id := 4, title := "Industrial Zone Minor Variance Application",
      review_status := "pending", municipality := "Mississauga",
      property_matches := ["789 Lakeshore Boulevard"],
      rule_matches := ["Industrial Zoning", "Minor Variance"],
      created_at := "2024-01-18T13:00:00Z" },
    { id := 5, title := "Heritage Designation Proposal - Downtown Core",
      review_status := "resolved", municipality := "Toronto",
      property_matches := ["123 King Street West"],
      rule_matches := ["Heritage Designation", "Historical Preservation"],
      created_at := "2024-01-19T14:00:00Z" } ]

/-- Result of the normalization CASE expression of migration 003 on one
matches value: either the value cast to JSONB unchanged, or the JSON array
built from the comma-split segments of its text form. -/
inductive NormalizedMatch where
  | castJsonb (text : String)
  | jsonArray (segments : List String)
  deriving Repr, DecidableEq

/-- The SQL LIKE test of migration 003 on a matches value: the pattern is an
opening square bracket, a percent wildcard, and a closing square bracket, so
it holds exactly when the text begins with an opening bracket AND ends with a
closing bracket. -/
def likeBracketPattern (s : String) : Bool :=
  s.data.head? == some '[' && s.data.getLast? == some ']'

/-- Character-level split on commas, the semantics of the PostgreSQL
string_to_array call of migration 003 at a comma delimiter: consecutive
delimiters yield empty segments, a text without commas yields one segment. -/
def splitSegmentsOnComma : List Char → List (List Char)
  | [] => [[]]
  | c :: rest =>
    let r := splitSegmentsOnComma rest
    if c = ',' then [] :: r
    else
      match r with
      | [] => [[c]]
      | seg :: segs => (c :: seg) :: segs

/-- PostgreSQL string_to_array with a comma delimiter: the empty text yields
the empty array, any other text yields its comma-separated segments. -/
def string_to_array_comma (t : String) : List String :=
  if t = "" then []
  else (splitSegmentsOnComma t.data).map (fun cs => String.mk cs)

/-- The CASE expression of migration 003 normalizing one property_matches or
rule_matches value (lines 50 to 66): NULL stays NULL, a non-null value whose
text matches the bracket LIKE pattern is cast to JSONB unchanged, and any
other non-null value becomes the JSON array of its comma-split segments. -/
def normalizeMatchValue (v : Option String) : Option NormalizedMatch :=
  match v with
  | none => none
  | some t =>
    if likeBracketPattern t then some (NormalizedMatch.castJsonb t)
    else some (NormalizedMatch.jsonArray (string_to_array_comma t))

/-- The subquery of migration 003 backfilling alerts.document_id: SELECT id
FROM documents LIMIT 1, an arbitrary single row, modelled as the head of the
documents list. -/
def selectFirstDocumentId (docs : List Document) : Option Nat :=
  docs.head?.map (fun d => d.id)

/-- The UPDATE of migration 003 (lines 25 to 28): every alert with NULL
document_id is pointed at the one document returned by the LIMIT 1 subquery,
provided at least one documents row exists; no alert is deleted. -/
def backfillAlertDocumentIds (alerts : List Alert) (docs : List Document) :
    List Alert :=
  match selectFirstDocumentId docs with
  | none => alerts
  | some did =>
    alerts.map (fun a =>
      if a.document_id.isNone then { a with document_id := some did } else a)

/-- The ALTER TABLE of migration 003 (lines 42 to 43) making
alerts.document_id NOT NULL: it succeeds only when no NULL remains. -/
def alterAlertsDocumentIdNotNull (alerts : List Alert) :
    Except String (List Alert) :=
  if alerts.all (fun a => a.document_id.isSome) then Except.ok alerts
  else Except.error "column document_id contains null values"

/-- Step 1 of migration 003 as a whole: backfill NULL document_id values,
then set the column NOT NULL. -/
def migration003BackfillStep (alerts : List Alert) (docs : List Document) :
    Except String (List Alert) :=
  alterAlertsDocumentIdNotNull (backfillAlertDocumentIds alerts docs)

/-- A small concrete database used to witness the cascade claim: one
municipality, one meeting, two documents, two alerts owned by different
companies. -/
def demoDb : DB :=
  { municipalities := [{ id := 1, feed_url := "https://feeds.example/1" }],
    meetings := [{ id := 10, municipality_id := 1 }],
    documents :=
      [{ id := 100, meeting_id := 10, content_hash := "h100", status := "done" },
       { id := 101, meeting_id := 10, content_hash := "h101", status := "done" }],
    alerts :=
      [{ id := 1000, company_id := 7, document_id := some 100,
         review_status := "pending" },
       { id := 1001, company_id := 8, document_id := some 101,
         review_status := "resolved" }],
    company_municipalities := [(7, 1), (8, 1)],
    properties := [] }

/-- Filter parameters asking only for pending alerts. -/
def pendingFilterParams : AlertListParams :=
  { status := some "pending", municipality := none, property_id := none,
    start_date := none, end_date := none }

/-- Filter parameters asking only for resolved alerts. -/
def resolvedFilterParams : AlertListParams :=
  { status := some "resolved", municipality := none, property_id := none,
    start_date := none, end_date := none }

/-- Helper: under the unique constraint on content_hash, at most one
documents row carries any given hash. -/
theorem filter_hash_length_le_one (docs : List Document) (hash : String)
    (huniq : documents_content_hash_unique docs) :
    (docs.filter (fun d => d.content_hash == hash)).length ≤ 1 := by
  induction docs with
  | nil => simp
  | cons d ds ih =>
    simp only [documents_content_hash_unique, List.pairwise_cons] at huniq
    obtain ⟨hhead, htail⟩ := huniq
    by_cases hp : (d.content_hash == hash) = true
    · have hnil : ds.filter (fun e => e.content_hash == hash) = [] := by
        rw [List.filter_eq_nil_iff]
        intro e he hpe
        exact hhead e he ((eq_of_beq hp).trans (eq_of_beq hpe).symm)
      simp [List.filter_cons, hp, hnil]
    · have hp2 : (d.content_hash == hash) = false := by
        simpa using hp
      simp only [List.filter_cons, hp2, if_neg]
      simpa using ih htail

/-- Helper: searching for the first row satisfying a predicate is unaffected
by first restricting the table with a weaker predicate. -/
theorem find?_filter_of_imp {α : Type} (p q : α → Bool) (l : List α)
    (himp : ∀ r, p r = true → q r = true) :
    (l.filter q).find? p = l.find? p := by
  induction l with
  | nil => rfl
  | cons r rs ih =>
    by_cases hq : q r = true
    · by_cases hp : p r = true
      · simp [List.filter_cons, List.find?_cons, hq, hp]
      · simp only [List.filter_cons, hq, if_pos]
        rw [List.find?_cons_of_neg _ (by simp_all),
          List.find?_cons_of_neg _ (by simp_all)]
        exact ih
    · have hp : p r = false := by
        cases hpc : p r
        · rfl
        · exact absurd (himp r hpc) hq
      simp only [List.filter_cons, hq, if_neg, Bool.false_eq_true,
        not_false_iff]
      rw [List.find?_cons_of_neg _ (by simp [hp])]
      exact ih

/-- Helper: ingestion returns the existing identity when the hash is
already present. -/
theorem ingest_finds_existing (db : DB) (meetingId : Nat) (hash : String)
    (d : Document)
    (hfind : db.documents.find? (fun e => e.content_hash == hash) = some d) :
    ingestDocument db meetingId hash = Except.ok (d.id, db) := by
  simp only [ingestDocument, hfind]

/-- C4: an update of an alert review_status succeeds exactly when the new
value is one of "pending", "reviewed", "resolved"; any other value (for
example "reviewing" or "false_positive") violates
alerts_review_status_check, the update errors, and the table is unchanged. -/
theorem C4_review_status_check (alerts : List Alert) (aid : Nat) :
    (∀ s, alerts_review_status_check s = true →
      updateAlertStatus alerts aid s =
        Except.ok (alerts.map (fun a =>
          if a.id == aid then { a with review_status := s } else a))) ∧
    (∀ s, alerts_review_status_check s = false →
      updateAlertStatus alerts aid s =
        Except.error "alerts_review_status_check") ∧
    alerts_review_status_check "pending" = true ∧
    alerts_review_status_check "reviewed" = true ∧
    alerts_review_status_check "resolved" = true ∧
    alerts_review_status_check "reviewing" = false ∧
    alerts_review_status_check "false_positive" = false := by
  refine ⟨?_, ?_, by decide, by decide, by decide, by decide, by decide⟩
  · intro s hs
    simp [updateAlertStatus, hs]
  · intro s hs
    simp [updateAlertStatus, hs]

/-- Witness for C4 at a concrete alert row: setting "reviewing" is rejected,
setting "reviewed" succeeds. -/
theorem C4_review_status_check_witness :
    updateAlertStatus
      [{ id := 1, company_id := 7, document_id := some 3,
         review_status := "pending" }] 1 "reviewing" =
      Except.error "alerts_review_status_check" ∧
    updateAlertStatus
      [{ id := 1, company_id := 7, document_id := some 3,
         review_status := "pending" }] 1 "reviewed" =
      Except.ok
        [{ id := 1, company_id := 7, document_id := some 3,
           review_status := "reviewed" }] := by
  constructor
  · exact (C4_review_status_check _ 1).2.1 "reviewing" (by decide)
  · have h := (C4_review_status_check
      [{ id := 1, company_id := 7, document_id := some 3,
         review_status := "pending" }] 1).1 "reviewed" (by decide)
    rw [h]
    rfl

/-- C9 counterexample: the claim says a non-null value whose text form begins
with an opening bracket is cast to JSONB unchanged, but the LIKE pattern of
migration 003 also requires a closing bracket at the end; a value beginning
with a bracket and not ending with one is instead comma-split. -/
theorem C9_counterexample :
    ("[zoning,heritage".data.head? == some '[') = true ∧
    normalizeMatchValue (some "[zoning,heritage") =
      some (NormalizedMatch.jsonArray ["[zoning", "heritage"]) ∧
    normalizeMatchValue (some "[zoning,heritage") ≠
      some (NormalizedMatch.castJsonb "[zoning,heritage") := by
  refine ⟨by decide, by decide, by decide⟩

/-- C9 (amended): after the migration 003 normalization, NULL values remain
NULL; a non-null value whose text form begins with an opening bracket AND
ends with a closing bracket is cast to JSONB unchanged; and any other
non-null value is converted to the JSON array of its comma-separated
segments. -/
theorem C9_normalize_matches :
    normalizeMatchValue none = none ∧
    (∀ t : String, likeBracketPattern t = true →
      normalizeMatchValue (some t) = some (NormalizedMatch.castJsonb t)) ∧
    (∀ t : String, likeBracketPattern t = false →
      normalizeMatchValue (some t) =
        some (NormalizedMatch.jsonArray (string_to_array_comma t))) := by
  refine ⟨rfl, ?_, ?_⟩
  · intro t ht
    simp [normalizeMatchValue, ht]
  · intro t ht
    simp [normalizeMatchValue, ht]

/-- Witness for C9 at concrete values: a bracketed JSON text is cast
unchanged and a plain comma-delimited legacy text is split. -/
theorem C9_normalize_matches_witness :
    normalizeMatchValue (some "[1, 2]") =
      some (NormalizedMatch.castJsonb "[1, 2]") ∧
    normalizeMatchValue (some "a,b") =
      some (NormalizedMatch.jsonArray ["a", "b"]) := by
  constructor
  · exact C9_normalize_matches.2.1 "[1, 2]" (by decide)
  · rw [C9_normalize_matches.2.2 "a,b" (by decide)]
    decide

/-- C10: when migration 003 runs on alerts containing NULL document_id rows
and at least one documents row exists, every such alert is pointed at the
single document returned by the LIMIT 1 subquery (the same one for all of
them, regardless of which document originally triggered the alert), no alert
is deleted, and only then does the NOT NULL alteration succeed. -/
theorem C10_document_id_backfill (alerts : List Alert) (docs : List Document)
    (d : Document) (hd : docs.head? = some d) :
    (backfillAlertDocumentIds alerts docs).length = alerts.length ∧
    (∀ a ∈ alerts, a.document_id = none →
      { a with document_id := some d.id } ∈ backfillAlertDocumentIds alerts docs) ∧
    (∀ a ∈ alerts, a.document_id ≠ none →
      a ∈ backfillAlertDocumentIds alerts docs) ∧
    migration003BackfillStep alerts docs =
      Except.ok (backfillAlertDocumentIds alerts docs) := by
  have hsel : selectFirstDocumentId docs = some d.id := by
    simp [selectFirstDocumentId, hd]
  have hbf : backfillAlertDocumentIds alerts docs =
      alerts.map (fun a =>
        if a.document_id.isNone then { a with document_id := some d.id }
        else a) := by
    simp [backfillAlertDocumentIds, hsel]
  refine ⟨?_, ?_, ?_, ?_⟩
  · rw [hbf]; exact List.length_map _ _
  · intro a ha hnone
    rw [hbf]
    have : (fun a : Alert =>
        if a.document_id.isNone then { a with document_id := some d.id }
        else a) a = { a with document_id := some d.id } := by
      simp [hnone]
    rw [← this]
    exact List.mem_map_of_mem _ ha
  · intro a ha hsome
    rw [hbf]
    have : (fun a : Alert =>
        if a.document_id.isNone then { a with document_id := some d.id }
        else a) a = a := by
      have : a.document_id.isNone = false := by
        cases hcase : a.document_id with
        | none => exact absurd hcase hsome
        | some x => rfl
      simp [this]
    rw [← this]
    exact List.mem_map_of_mem _ ha
  · unfold migration003BackfillStep alterAlertsDocumentIdNotNull
    have hall : (backfillAlertDocumentIds alerts docs).all
        (fun a => a.document_id.isSome) = true := by
      rw [hbf]
      simp only [List.all_eq_true, List.mem_map]
      rintro a ⟨b, hb, rfl⟩
      cases hcase : b.document_id with
      | none => simp [hcase]
      | some x => simp [hcase]
    rw [hall]
    simp

/-- Witness for C10 at a concrete state: one NULL alert and one non-null
alert, two documents; the NULL alert is pointed at the first document, the
count is preserved, and the NOT NULL step succeeds. -/
theorem C10_document_id_backfill_witness :
    (backfillAlertDocumentIds
      [{ id := 1, company_id := 7, document_id := none,
         review_status := "pending" },
       { id := 2, company_id := 7, document_id := some 6,
         review_status := "pending" }]
      [{ id := 5, meeting_id := 42, content_hash := "abc123",
         status := "done" },
       { id := 6, meeting_id := 42, content_hash := "def456",
         status := "done" }]).length = 2 ∧
    migration003BackfillStep
      [{ id := 1, company_id := 7, document_id := none,
         review_status := "pending" },
       { id := 2, company_id := 7, document_id := some 6,
         review_status := "pending" }]
      [{ id := 5, meeting_id := 42, content_hash := "abc123",
         status := "done" },
       { id := 6, meeting_id := 42, content_hash := "def456",
         status := "done" }] =
      Except.ok (backfillAlertDocumentIds
        [{ id := 1, company_id := 7, document_id := none,
           review_status := "pending" },
         { id := 2, company_id := 7, document_id := some 6,
           review_status := "pending" }]
        [{ id := 5, meeting_id := 42, content_hash := "abc123",
           status := "done" },
         { id := 6, meeting_id := 42, content_hash := "def456",
           status := "done" }]) := by
  have h := C10_document_id_backfill
    [{ id := 1, company_id := 7, document_id := none,
       review_status := "pending" },
     { id := 2, company_id := 7, document_id := some 6,
       review_status := "pending" }]
    [{ id := 5, meeting_id := 42, content_hash := "abc123",
       status := "done" },
     { id := 6, meeting_id := 42, content_hash := "def456",
       status := "done" }]
    { id := 5, meeting_id := 42, content_hash := "abc123", status := "done" }
    rfl
  exact ⟨h.1, h.2.2.2⟩

/-- C1: under the unique constraint documents_content_hash_unique of
migration 002, a successful ingest leaves exactly one documents row with the
ingested hash, a second ingest of the same hash is a no-op returning the
same document id and the unchanged state, and the uniqueness invariant is
preserved, so at most one row per content hash ever exists. -/
theorem C1_ingest_dedup (db : DB) (meetingId : Nat) (hash : String)
    (id1 : Nat) (db1 : DB)
    (huniq : documents_content_hash_unique db.documents)
    (hok : ingestDocument db meetingId hash = Except.ok (id1, db1)) :
    ingestDocument db1 meetingId hash = Except.ok (id1, db1) ∧
    (db1.documents.filter (fun d => d.content_hash == hash)).length = 1 ∧
    documents_content_hash_unique db1.documents := by
  cases hfind : db.documents.find? (fun d => d.content_hash == hash) with
  | some d =>
    have hok2 := hok
    simp only [ingestDocument, hfind, Except.ok.injEq, Prod.mk.injEq] at hok2
    obtain ⟨hid, hdb⟩ := hok2
    subst hid
    subst hdb
    refine ⟨ingest_finds_existing db meetingId hash d hfind, ?_, huniq⟩
    have hdmem := List.mem_of_find?_eq_some hfind
    have hdp := List.find?_some hfind
    have hle := filter_hash_length_le_one db.documents hash huniq
    have hmem : d ∈ db.documents.filter (fun e => e.content_hash == hash) :=
      List.mem_filter.mpr ⟨hdmem, hdp⟩
    have hpos :
        0 < (db.documents.filter (fun e => e.content_hash == hash)).length :=
      List.length_pos.mpr (List.ne_nil_of_mem hmem)
    omega
  | none =>
    have hok2 := hok
    simp only [ingestDocument, hfind] at hok2
    by_cases hany : db.meetings.any (fun m => m.id == meetingId) = true
    · rw [if_pos hany] at hok2
      simp only [Except.ok.injEq, Prod.mk.injEq] at hok2
      obtain ⟨hid, hdb⟩ := hok2
      subst hid
      subst hdb
      have hnone := List.find?_eq_none.mp hfind
      have hfind1 :
          ({ id := freshDocumentId db.documents, meeting_id := meetingId,
             content_hash := hash, status := "pending" } :: db.documents).find?
            (fun e => e.content_hash == hash) =
          some { id := freshDocumentId db.documents, meeting_id := meetingId,
                 content_hash := hash, status := "pending" } :=
        List.find?_cons_of_pos _ (by simp)
      refine ⟨?_, ?_, ?_⟩
      · exact ingest_finds_existing
          { db with documents :=
              { id := freshDocumentId db.documents, meeting_id := meetingId,
                content_hash := hash, status := "pending" } :: db.documents }
          meetingId hash _ hfind1
      · have hfe : db.documents.filter (fun e => e.content_hash == hash) = [] := by
          rw [List.filter_eq_nil_iff]
          exact hnone
        simp [List.filter_cons, hfe]
      · simp only [documents_content_hash_unique, List.pairwise_cons]
        refine ⟨?_, huniq⟩
        intro e he heq
        exact hnone e he (by simp [← heq])
    · rw [if_neg hany] at hok2
      cases hok2

/-- Witness for C1: ingesting hash "abc123" for meeting 42 into an empty
documents table, then re-ingesting it, returns the same id 1 and the
unchanged one-row state. -/
theorem C1_ingest_dedup_witness :
    ingestDocument
      { municipalities := [], meetings := [{ id := 42, municipality_id := 9 }],
        documents :=
          [{ id := 1, meeting_id := 42, content_hash := "abc123",
             status := "pending" }],
        alerts := [], company_municipalities := [], properties := [] }
      42 "abc123" =
      Except.ok (1,
        { municipalities := [],
          meetings := [{ id := 42, municipality_id := 9 }],
          documents :=
            [{ id := 1, meeting_id := 42, content_hash := "abc123",
               status := "pending" }],
          alerts := [], company_municipalities := [], properties := [] }) ∧
    (({ municipalities := [], meetings := [{ id := 42, municipality_id := 9 }],
        documents :=
          [{ id := 1, meeting_id := 42, content_hash := "abc123",
             status := "pending" }],
        alerts := [], company_municipalities := [],
        properties := [] } : DB).documents.filter
      (fun d => d.content_hash == "abc123")).length = 1 := by
  have h := C1_ingest_dedup
    { municipalities := [], meetings := [{ id := 42, municipality_id := 9 }],
      documents := [], alerts := [], company_municipalities := [],
      properties := [] }
    42 "abc123" 1
    { municipalities := [], meetings := [{ id := 42, municipality_id := 9 }],
      documents :=
        [{ id := 1, meeting_id := 42, content_hash := "abc123",
           status := "pending" }],
      alerts := [], company_municipalities := [], properties := [] }
    List.Pairwise.nil
    rfl
  exact ⟨h.1, h.2.1⟩

/-- C2: the matcher upsert keeps at most one alerts row per
(company_id, document_id) pair: a first positive match on a pair with no
alert creates exactly one row, and re-running the matcher when the pair
already has exactly one row changes nothing, so no duplicate is ever
created. -/
theorem C2_alert_uniqueness (alerts : List Alert) (c d : Nat) :
    (alertsForCompanyDocument alerts c d = [] →
      (alertsForCompanyDocument (matcherUpsertAlert alerts c d) c d).length = 1) ∧
    ((alertsForCompanyDocument alerts c d).length = 1 →
      matcherUpsertAlert alerts c d = alerts) := by
  constructor
  · intro h0
    have hpred : ∀ a ∈ alerts,
        ¬((a.company_id == c && a.document_id == some d) = true) := by
      rw [alertsForCompanyDocument, List.filter_eq_nil_iff] at h0
      exact h0
    have hany : alerts.any
        (fun a => a.company_id == c && a.document_id == some d) = false := by
      rw [← Bool.not_eq_true, List.any_eq_true]
      rintro ⟨a, ha, hp⟩
      exact hpred a ha hp
    rw [matcherUpsertAlert, if_neg (by simp [hany])]
    rw [alertsForCompanyDocument, List.filter_cons]
    simp only [beq_self_eq_true, Bool.and_self, if_pos]
    have h0f : alerts.filter
        (fun a => a.company_id == c && a.document_id == some d) = [] := h0
    simp [h0f]
  · intro h1
    have hne : alertsForCompanyDocument alerts c d ≠ [] := by
      intro hnil
      rw [hnil] at h1
      simp at h1
    obtain ⟨a, ha⟩ := List.exists_mem_of_ne_nil _ hne
    have hamem := List.mem_filter.mp ha
    have hany : alerts.any
        (fun a => a.company_id == c && a.document_id == some d) = true :=
      List.any_eq_true.mpr ⟨a, hamem.1, hamem.2⟩
    rw [matcherUpsertAlert, if_pos (by simp [hany])]

/-- Witness for C2 at the concrete scenario of the spec: company 7, one
document; the first matcher run creates exactly one alert row and the second
run leaves the state unchanged. -/
theorem C2_alert_uniqueness_witness :
    (alertsForCompanyDocument (matcherUpsertAlert [] 7 1) 7 1).length = 1 ∧
    matcherUpsertAlert (matcherUpsertAlert [] 7 1) 7 1 =
      matcherUpsertAlert [] 7 1 := by
  refine ⟨(C2_alert_uniqueness [] 7 1).1 rfl, ?_⟩
  exact (C2_alert_uniqueness (matcherUpsertAlert [] 7 1) 7 1).2
    ((C2_alert_uniqueness [] 7 1).1 rfl)

/-- C3: the tenant gate returns only rows stored with the caller company id;
listing returns exactly the caller-owned rows; looking up an entity id whose
rows all belong to other tenants yields not-found; the read result is
unchanged when the table is first restricted to the caller-owned rows (so
other tenants' rows cannot influence it); and updates leave every row of
other tenants untouched. -/
theorem C3_tenant_isolation (caller : Nat) (rows : List TenantRow) (eid : Nat)
    (p : String) :
    (∀ r, tenantGet caller rows eid = some r →
      r.company_id = caller ∧ r.id = eid) ∧
    (∀ r ∈ tenantList caller rows, r.company_id = caller) ∧
    ((∀ r ∈ rows, r.id = eid → r.company_id ≠ caller) →
      tenantGet caller rows eid = none) ∧
    tenantGet caller rows eid = tenantGet caller (tenantList caller rows) eid ∧
    (∀ r ∈ rows, r.company_id ≠ caller → r ∈ tenantUpdate caller rows eid p) := by
  refine ⟨?_, ?_, ?_, ?_, ?_⟩
  · intro r hr
    have hp := List.find?_some hr
    simp only [Bool.and_eq_true, beq_iff_eq] at hp
    exact ⟨hp.2, hp.1⟩
  · intro r hr
    have hp := (List.mem_filter.mp hr).2
    exact eq_of_beq hp
  · intro h
    rw [tenantGet, List.find?_eq_none]
    intro r hrmem
    simp only [Bool.and_eq_true, beq_iff_eq, not_and]
    intro h1 h2
    exact h r hrmem h1 h2
  · rw [tenantGet, tenantGet, tenantList]
    refine (find?_filter_of_imp _ _ rows ?_).symm
    intro r hp
    exact (Bool.and_eq_true _ _).mp hp |>.2
  · intro r hr hneq
    have hcond : (r.id == eid && r.company_id == caller) = false := by
      have : (r.company_id == caller) = false := by
        simp [hneq]
      simp [this]
    have hfix : (fun r : TenantRow =>
        if r.id == eid && r.company_id == caller then
          { r with payload := p }
        else r) r = r := by
      simp [hcond]
    rw [tenantUpdate, ← hfix]
    exact List.mem_map_of_mem _ hr

/-- Witness for C3: company 100 owns row 1, company 200 owns row 2; company
100 requesting entity id 2 gets not-found, and its read result equals the
read over its own rows only. -/
theorem C3_tenant_isolation_witness :
    tenantGet 100
      [{ id := 1, company_id := 100, payload := "rowA" },
       { id := 2, company_id := 200, payload := "rowB" }] 2 = none ∧
    tenantGet 100
      [{ id := 1, company_id := 100, payload := "rowA" },
       { id := 2, company_id := 200, payload := "rowB" }] 2 =
      tenantGet 100
        (tenantList 100
          [{ id := 1, company_id := 100, payload := "rowA" },
           { id := 2, company_id := 200, payload := "rowB" }]) 2 := by
  have h := C3_tenant_isolation 100
    [{ id := 1, company_id := 100, payload := "rowA" },
     { id := 2, company_id := 200, payload := "rowB" }] 2 "x"
  exact ⟨h.2.2.1 (by decide), h.2.2.2.1⟩

/-- C5: under the ON DELETE CASCADE foreign keys, deleting a document
removes every alert referencing it and preserves referential integrity, and
deleting a municipality removes its meetings, all documents of those
meetings, and all alerts of those documents, again preserving referential
integrity, so no orphaned meetings, documents or alerts remain. -/
theorem C5_cascade_integrity (db : DB) (did mid : Nat)
    (hint : fkIntegrity db) :
    (∀ a ∈ (deleteDocumentCascade db did).alerts, a.document_id ≠ some did) ∧
    fkIntegrity (deleteDocumentCascade db did) ∧
    (∀ m ∈ (deleteMunicipalityCascade db mid).meetings,
      m.municipality_id ≠ mid) ∧
    (∀ d ∈ (deleteMunicipalityCascade db mid).documents,
      ∀ m ∈ db.meetings, m.id = d.meeting_id → m.municipality_id ≠ mid) ∧
    fkIntegrity (deleteMunicipalityCascade db mid) := by
  obtain ⟨hmu, hdoc, hal⟩ := hint
  refine ⟨?_, ⟨?_, ?_, ?_⟩, ?_, ?_, ⟨?_, ?_, ?_⟩⟩
  · intro a ha
    have h2 := (List.mem_filter.mp ha).2
    simp only [Bool.not_eq_true', beq_eq_false_iff_ne, ne_eq] at h2
    exact h2
  · intro m hm
    exact hmu m hm
  · intro d hd
    exact hdoc d (List.mem_filter.mp hd).1
  · intro a ha x hx
    have hamem := List.mem_filter.mp ha
    obtain ⟨d0, hd0mem, hd0id⟩ := hal a hamem.1 x hx
    refine ⟨d0, List.mem_filter.mpr ⟨hd0mem, ?_⟩, hd0id⟩
    simp only [Bool.not_eq_true', beq_eq_false_iff_ne, ne_eq]
    intro hdd
    have hxd : x = did := hd0id.symm.trans hdd
    have hfalse := hamem.2
    rw [hx, hxd] at hfalse
    simp at hfalse
  · intro m hm
    simp only [deleteMunicipalityCascade] at hm
    have h2 := (List.mem_filter.mp hm).2
    simp only [Bool.not_eq_true', beq_eq_false_iff_ne, ne_eq] at h2
    exact h2
  · intro d hd m hm hmid hmmid
    simp only [deleteMunicipalityCascade] at hd
    have hdmem := List.mem_filter.mp hd
    have hcontains : ((db.meetings.filter
        (fun m => m.municipality_id == mid)).map (fun m => m.id)).contains
        d.meeting_id = true :=
      List.elem_iff.mpr (List.mem_map.mpr
        ⟨m, List.mem_filter.mpr ⟨hm, by simp [hmmid]⟩, hmid⟩)
    have h2 := hdmem.2
    rw [hcontains] at h2
    simp at h2
  · intro m hm
    simp only [deleteMunicipalityCascade] at hm ⊢
    have hmmem := List.mem_filter.mp hm
    obtain ⟨mu, humem, huid⟩ := hmu m hmmem.1
    refine ⟨mu, List.mem_filter.mpr ⟨humem, ?_⟩, huid⟩
    simp only [Bool.not_eq_true', beq_eq_false_iff_ne, ne_eq]
    intro heq
    have h2 := hmmem.2
    simp only [Bool.not_eq_true', beq_eq_false_iff_ne, ne_eq] at h2
    exact h2 (huid ▸ heq)
  · intro d hd
    simp only [deleteMunicipalityCascade] at hd ⊢
    have hdmem := List.mem_filter.mp hd
    obtain ⟨m, hmmem, hmid⟩ := hdoc d hdmem.1
    refine ⟨m, List.mem_filter.mpr ⟨hmmem, ?_⟩, hmid⟩
    simp only [Bool.not_eq_true', beq_eq_false_iff_ne, ne_eq]
    intro heq
    have hcontains : ((db.meetings.filter
        (fun m => m.municipality_id == mid)).map (fun m => m.id)).contains
        d.meeting_id = true :=
      List.elem_iff.mpr (List.mem_map.mpr
        ⟨m, List.mem_filter.mpr ⟨hmmem, by simp [heq]⟩, hmid⟩)
    have h2 := hdmem.2
    rw [hcontains] at h2
    simp at h2
  · intro a ha x hx
    simp only [deleteMunicipalityCascade] at ha ⊢
    have hamem := List.mem_filter.mp ha
    obtain ⟨d0, hd0mem, hd0id⟩ := hal a hamem.1 x hx
    refine ⟨d0, List.mem_filter.mpr ⟨hd0mem, ?_⟩, hd0id⟩
    cases hc : ((db.meetings.filter
        (fun m => m.municipality_id == mid)).map (fun m => m.id)).contains
        d0.meeting_id with
    | false => rfl
    | true =>
      exfalso
      have hxcont : ((db.documents.filter (fun d =>
          ((db.meetings.filter (fun m => m.municipality_id == mid)).map
            (fun m => m.id)).contains d.meeting_id)).map
          (fun d => d.id)).contains x = true :=
        List.elem_iff.mpr (List.mem_map.mpr
          ⟨d0, List.mem_filter.mpr ⟨hd0mem, hc⟩, hd0id⟩)
      have h2 := hamem.2
      simp only [hx, Bool.not_eq_true'] at h2
      rw [hxcont] at h2
      simp at h2

/-- Witness for C5 at the concrete demoDb: referential integrity holds
before the deletes and after deleting document 100 and after deleting
municipality 1 with its full cascade chain. -/
theorem C5_cascade_integrity_witness :
    fkIntegrity (deleteDocumentCascade demoDb 100) ∧
    fkIntegrity (deleteMunicipalityCascade demoDb 1) := by
  have hint : fkIntegrity demoDb := by
    refine ⟨by decide, by decide, ?_⟩
    intro a ha x hx
    simp only [demoDb, List.mem_cons, List.not_mem_nil, or_false] at ha
    rcases ha with rfl | rfl
    · injection hx with h
      subst h
      exact ⟨{ id := 100, meeting_id := 10, content_hash := "h100",
               status := "done" }, by simp [demoDb], rfl⟩
    · injection hx with h
      subst h
      exact ⟨{ id := 101, meeting_id := 10, content_hash := "h101",
               status := "done" }, by simp [demoDb], rfl⟩
  have h := C5_cascade_integrity demoDb 100 1 hint
  exact ⟨h.2.1, h.2.2.2.2⟩

/-- C6 counterexample: the session callback of route.ts assigns the company
id "default" (and role "analyst") to a session whose decoded id_token
carries no company_id claim at all, so a token lacking a company_id claim IS
silently assigned a default company, contrary to the claim. -/
theorem C6_counterexample :
    sessionUserFromClaims
      { company_id := none, ns_company_id := none, role := none,
        ns_role := none } =
      { company_id := "default", role := "analyst" } := by
  rfl

/-- C6 (amended): company_id and role are read from the decoded id_token
claims (the jwt callback base64-decodes the payload without cryptographic
verification) and not from the request body; a present non-empty company_id
claim is used as-is, but when both company_id claims are absent the session
falls back to the company id "default", and an absent role falls back to
"analyst". -/
theorem C6_company_id_claims (claims : IdTokenClaims) :
    (∀ c, claims.company_id = some c → c ≠ "" →
      (sessionUserFromClaims claims).company_id = c) ∧
    (claims.company_id = none → claims.ns_company_id = none →
      (sessionUserFromClaims claims).company_id = "default") ∧
    (claims.role = none → claims.ns_role = none →
      (sessionUserFromClaims claims).role = "analyst") := by
  refine ⟨?_, ?_, ?_⟩
  · intro c hc hne
    simp [sessionUserFromClaims, sessionCallbackUser, jwtCallbackCompanyId,
      jsOrElse, hc, hne]
  · intro h1 h2
    simp [sessionUserFromClaims, sessionCallbackUser, jwtCallbackCompanyId,
      jsOrElse, h1, h2]
  · intro h1 h2
    simp [sessionUserFromClaims, sessionCallbackUser, jwtCallbackRole,
      jsOrElse, h1, h2]

/-- Witness for C6 at concrete claims: a token with company_id "acme" yields
company "acme", and a token with no claims at all yields company "default". -/
theorem C6_company_id_claims_witness :
    (sessionUserFromClaims
      { company_id := some "acme", ns_company_id := none,
        role := some "admin", ns_role := none }).company_id = "acme" ∧
    (sessionUserFromClaims
      { company_id := none, ns_company_id := none, role := none,
        ns_role := none }).company_id = "default" := by
  constructor
  · exact (C6_company_id_claims _).1 "acme" rfl (by decide)
  · exact (C6_company_id_claims _).2.1 rfl rfl

/-- C7: a property create for company c in municipality m succeeds exactly
when a company_municipalities subscription row (c, m) exists; without the
subscription the write is rejected with an error. -/
theorem C7_subscription_scoping (db : DB) (c m : Nat) (addr : String) :
    ((∃ db2, createProperty db c m addr = Except.ok db2) ↔
      (c, m) ∈ db.company_municipalities) ∧
    ((c, m) ∉ db.company_municipalities →
      createProperty db c m addr =
        Except.error "company is not subscribed to this municipality") := by
  have hiff : db.company_municipalities.any
      (fun cm => cm.1 == c && cm.2 == m) = true ↔
      (c, m) ∈ db.company_municipalities := by
    rw [List.any_eq_true]
    constructor
    · rintro ⟨cm, hmem, hcm⟩
      simp only [Bool.and_eq_true, beq_iff_eq] at hcm
      obtain ⟨h1, h2⟩ := hcm
      have : cm = (c, m) := by
        cases cm
        simp_all
      rwa [this] at hmem
    · intro hmem
      exact ⟨(c, m), hmem, by simp⟩
  constructor
  · constructor
    · rintro ⟨db2, hok⟩
      by_cases hany : db.company_municipalities.any
          (fun cm => cm.1 == c && cm.2 == m) = true
      · exact hiff.mp hany
      · rw [createProperty, if_neg (by simpa using hany)] at hok
        cases hok
    · intro hmem
      exact ⟨_, by rw [createProperty, if_pos (by simpa using hiff.mpr hmem)]⟩
  · intro hnot
    have hany : db.company_municipalities.any
        (fun cm => cm.1 == c && cm.2 == m) = false := by
      cases hc : db.company_municipalities.any
          (fun cm => cm.1 == c && cm.2 == m)
      · rfl
      · exact absurd (hiff.mp hc) hnot
    rw [createProperty, if_neg (by simp [hany])]

/-- Witness for C7: with the single subscription (7, 3), company 8 cannot
create a property in municipality 3, while company 7 can. -/
theorem C7_subscription_scoping_witness :
    createProperty
      { municipalities := [], meetings := [], documents := [], alerts := [],
        company_municipalities := [(7, 3)], properties := [] }
      8 3 "10 Main St" =
      Except.error "company is not subscribed to this municipality" ∧
    (7, 3) ∈
      ({ municipalities := [], meetings := [], documents := [],
         alerts := [], company_municipalities := [(7, 3)],
         properties := [] } : DB).company_municipalities := by
  constructor
  · exact (C7_subscription_scoping _ 8 3 "10 Main St").2 (by decide)
  · exact (C7_subscription_scoping
      { municipalities := [], meetings := [], documents := [], alerts := [],
        company_municipalities := [(7, 3)], properties := [] }
      7 3 "10 Main St").1.mp ⟨_, rfl⟩

/-- C8: the alerts list call of src/web/lib/api.ts returns the same
hardcoded five-element list for every combination of filter parameters: the
result for a pending-status filter equals the result for a resolved-status
filter, and under the pending filter only two of the five returned rows are
actually pending, so the returned list does not respect the supplied
filters. -/
theorem C8_alerts_list_ignores_filters :
    alertsListMock pendingFilterParams = alertsListMock resolvedFilterParams ∧
    ((alertsListMock pendingFilterParams).filter
      (fun a => a.review_status == "pending")).length = 2 ∧
    (alertsListMock pendingFilterParams).length = 5 := by
  refine ⟨rfl, by decide, by decide⟩
